import Mathlib

/-!
Verification of the notification-center state logic of the LMS frontend
(`src/components/NotificationCenter.tsx`).

The component keeps two pieces of local state: `notifications`, a list of
notification records, and `unreadCount`, an integer badge counter.  The
state is mutated by
  - the socket event handlers (`newSocket.on('notification', ...)` prepends
    the payload and increments the counter; the handlers for
    `new_assignment`, `grade_posted`, `enrollment_update` and
    `system_message` only `console.log`),
  - `fetchNotifications` / `fetchUnreadCount` (seed from the REST snapshot,
    only on `response.ok`),
  - `markAsRead` / `markAllAsRead` (mutate local state only after the PATCH
    resolved with `response.ok`; on a network error or a non-2xx response
    the state is untouched).

At runtime the TypeScript `Notification` interface is erased, so a pushed
payload may miss any of its declared fields; fields that the code reads are
therefore modelled as `Option`s, and the `read` flag as the JavaScript
truthiness of the `read` property (an absent field is falsy, i.e. `false`).
Network outcomes are passed explicitly: `Option` for a response body
(`none` = network error or non-2xx, either way the handler is skipped) and
a `Bool` success flag for the PATCH calls.
-/

set_option autoImplicit false

namespace LMS

/-- The runtime shape of a record held in the `notifications` state.  The
TypeScript interface declares `id`, `type`, `title`, `message`, `read`,
`createdAt` (and an optional `data`), but nothing validates an inbound
payload, so every field the code dereferences is modelled as optional;
`read` is the truthiness of the `read` property (absent ↦ `false`). -/
structure Notification where
  id : Option String
  type : Option String
  title : Option String
  message : Option String
  data : Option String
  read : Bool
  createdAt : Option String
deriving Repr, DecidableEq

/-- The component's local state: the `notifications` list and the
`unreadCount` badge counter (a JavaScript number, modelled as `Int`). -/
structure NotificationState where
  notifications : List Notification
  unreadCount : Int
deriving Repr, DecidableEq

/-- The state of the component when it mounts:
`useState<Notification[]>([])` and `useState(0)`. -/
def initialState : NotificationState :=
  { notifications := [], unreadCount := 0 }

/-- The `'notification'` socket handler (NotificationCenter.tsx lines
51-53): `setNotifications(prev => [notification, ...prev])` and
`setUnreadCount(prev => prev + 1)`.  There is no duplicate-id check and no
payload validation; the browser-notification display on lines 56-61 does
not touch the state. -/
def insertNotification (n : Notification) (s : NotificationState) : NotificationState :=
  { s with
    notifications := n :: s.notifications
    unreadCount := s.unreadCount + 1 }

/-- Dispatch of an inbound socket event by name, as registered with
`newSocket.on` (lines 41-79).  Only the `'notification'` handler touches
the notification state; the handlers for `'new_assignment'`,
`'grade_posted'`, `'enrollment_update'` and `'system_message'` only
`console.log` their payload (lines 65-79), `'connect'`/`'disconnect'` only
toggle `isConnected`, and an event name with no registered handler
triggers nothing at all. -/
def routeEvent (name : String) (payload : Notification) (s : NotificationState) :
    NotificationState :=
  if name = "notification" then insertNotification payload s else s

/-- Body of a 2xx response of `GET /notifications`; the `notifications`
field may be absent or `null` (both `none`). -/
structure NotificationsResponse where
  notifications : Option (List Notification)
deriving Repr, DecidableEq

/-- Body of a 2xx response of `GET /notifications/unread-count`; the
`count` field may be absent or `null` (both `none`). -/
structure CountResponse where
  count : Option Int
deriving Repr, DecidableEq

/-- State update of `fetchNotifications` (lines 103-118).  `resp = none`
models a network error (caught on line 115) or `response.ok = false`; in
both cases nothing is mutated.  On a 2xx response the code runs
`setNotifications(data.notifications || [])`: a missing/`null` field falls
back to the empty list (an empty array is itself truthy in JavaScript, so
`Option.getD` is exact for array-or-absent bodies). -/
def fetchNotificationsStep (resp : Option NotificationsResponse) (s : NotificationState) :
    NotificationState :=
  match resp with
  | none => s
  | some d => { s with notifications := d.notifications.getD [] }

/-- State update of `fetchUnreadCount` (lines 120-135).  `resp = none`
models a network error or a non-2xx response (nothing mutated).  On a 2xx
response the code runs `setUnreadCount(data.count || 0)`: `data.count || 0`
is `0` when `count` is absent, `null` or `0`, and `count` itself
otherwise, which is exactly `Option.getD 0` on integer-or-absent bodies. -/
def fetchUnreadCountStep (resp : Option CountResponse) (s : NotificationState) :
    NotificationState :=
  match resp with
  | none => s
  | some d => { s with unreadCount := d.count.getD 0 }

/-- State update of `markAsRead` (lines 137-155).  `ok` is whether the
PATCH to `/notifications/{id}/read` resolved with `response.ok`; only then
does the code map `read := true` over the records whose `id` matches and
run `setUnreadCount(prev => Math.max(0, prev - 1))` — the decrement is
unconditional, whether or not any record matched or was unread.  On a
network error or non-2xx response nothing is mutated. -/
def markAsRead (ok : Bool) (notificationId : String) (s : NotificationState) :
    NotificationState :=
  match ok with
  | true =>
    { s with
      notifications :=
        s.notifications.map fun n =>
          if n.id == some notificationId then { n with read := true } else n
      unreadCount := max 0 (s.unreadCount - 1) }
  | false => s

/-- State update of `markAllAsRead` (lines 157-173).  `ok` is whether the
PATCH to `/notifications/mark-all-read` resolved with `response.ok`; only
then does the code set `read := true` on every record and reset the
counter to `0`. -/
def markAllAsRead (ok : Bool) (s : NotificationState) : NotificationState :=
  match ok with
  | true =>
    { s with
      notifications := s.notifications.map fun n => { n with read := true }
      unreadCount := 0 }
  | false => s

/-- Number of records whose `read` flag is falsy — what the spec calls
`count(records where isRead == false)`. -/
def countUnread (ns : List Notification) : Nat :=
  (ns.filter fun n => !n.read).length

/-- The spec's counter invariant: the badge counter equals the number of
unread records in the store. -/
def counterInv (s : NotificationState) : Prop :=
  s.unreadCount = (countUnread s.notifications : Int)

instance (s : NotificationState) : Decidable (counterInv s) :=
  inferInstanceAs (Decidable (s.unreadCount = (countUnread s.notifications : Int)))

/-- A store operation, as the spec enumerates them.  `seed` is the pair of
initial snapshot fetches succeeding with the given body (list fetch then
count fetch); `insert` is a delivery of the `'notification'` socket event;
`markRead`/`markAllRead` carry the PATCH outcome. -/
inductive StoreOp where
  | seed (records : List Notification) (count : Int)
  | insert (n : Notification)
  | markRead (ok : Bool) (id : String)
  | markAllRead (ok : Bool)
deriving Repr, DecidableEq

/-- Effect of one store operation, built from the embedded handlers. -/
def applyOp (op : StoreOp) (s : NotificationState) : NotificationState :=
  match op with
  | .seed records count =>
      fetchUnreadCountStep (some ⟨some count⟩)
        (fetchNotificationsStep (some ⟨some records⟩) s)
  | .insert n => insertNotification n s
  | .markRead ok id => markAsRead ok id s
  | .markAllRead ok => markAllAsRead ok s

/-- Effect of a sequence of store operations, first operation first. -/
def applyOps (ops : List StoreOp) (s : NotificationState) : NotificationState :=
  ops.foldl (fun st op => applyOp op st) s

/-- Number of unread records whose `id` matches the given id. -/
def unreadMatches (notificationId : String) (ns : List Notification) : Nat :=
  (ns.filter fun n => n.id == some notificationId && !n.read).length

/-- Side conditions under which one store operation preserves the counter
invariant: a seed's count must equal the number of unread records it
seeds, an inserted record must be unread, and a markRead whose PATCH
succeeds must match exactly one unread record. -/
def safeOp (op : StoreOp) (s : NotificationState) : Bool :=
  match op with
  | .seed records count => count == (countUnread records : Int)
  | .insert n => !n.read
  | .markRead ok id => !ok || unreadMatches id s.notifications == 1
  | .markAllRead _ => true

/-- Side conditions of `safeOp` along a whole operation sequence. -/
def safeOps (ops : List StoreOp) (s : NotificationState) : Bool :=
  match ops with
  | [] => true
  | op :: rest => safeOp op s && safeOps rest (applyOp op s)

/-- Example record `a`, unread, with every declared field present. -/
def recA : Notification :=
  { id := some "a", type := some "system", title := some "A", message := some "hello"
    data := none, read := false, createdAt := some "2024-01-01T00:00:00Z" }

/-- Example record `b`, unread, with every declared field present. -/
def recB : Notification :=
  { id := some "b", type := some "grade", title := some "B", message := some "world"
    data := none, read := false, createdAt := some "2024-01-02T00:00:00Z" }

/-- A malformed pushed payload: the required `title`, `message` and
`createdAt` fields are missing. -/
def badRec : Notification :=
  { id := some "z", type := none, title := none, message := none
    data := none, read := false, createdAt := none }

/-- Example state holding the single unread record `a`, counter 1. -/
def stateA : NotificationState :=
  { notifications := [recA], unreadCount := 1 }

/-- Example state holding the unread records `a` and `b`, counter 2. -/
def stateAB : NotificationState :=
  { notifications := [recA, recB], unreadCount := 2 }

/-- C2 fails on the code: the `'notification'` handler has no duplicate-id
check.  Concretely, with the store holding the single record of id `"a"`,
delivering that very record again changes both the collection length
(1 → 2) and the counter (1 → 2), so the insert is not a no-op. -/
theorem C2_counterexample :
    recA ∈ stateA.notifications ∧
    (insertNotification recA stateA).notifications.length ≠ stateA.notifications.length ∧
    (insertNotification recA stateA).unreadCount ≠ stateA.unreadCount := by
  decide

/-- Claim C2, amended: the `'notification'` handler unconditionally
prepends the payload and increments the counter — the collection length
and the counter each grow by exactly 1 even when a record with the same id
is already present (duplicate ids are possible in the store). -/
theorem C2_insert_always_appends (n : Notification) (s : NotificationState) :
    (insertNotification n s).notifications.length = s.notifications.length + 1 ∧
    (insertNotification n s).unreadCount = s.unreadCount + 1 := by
  constructor <;> simp [insertNotification]

/-- C3 fails on the code: `markAsRead` is not optimistic.  It issues the
PATCH first and mutates local state only inside `if (response.ok)`; when
the PATCH fails, nothing was mutated, so record `"a"` (seeded unread)
still shows `read = false`, not `read = true` as the claim states. -/
theorem C3_counterexample :
    (markAsRead false "a" stateA).notifications.head? = some recA ∧ recA.read = false := by
  decide

/-- Claim C3, amended: `markAsRead` applies the local mutation only after
the PATCH resolves with `response.ok`; when the PATCH fails (network error
or non-2xx) the local state is left exactly as it was — there is no
optimistic update, hence nothing to roll back. -/
theorem C3_markAsRead_failure_noop (notificationId : String) (s : NotificationState) :
    markAsRead false notificationId s = s :=
  rfl

/-- C4 fails on the code: on a successful PATCH, `markAsRead` runs
`setUnreadCount(prev => Math.max(0, prev - 1))` unconditionally.  With the
store holding only the unread record `"a"` and counter 1, `markAsRead`
with the absent id `"x"` matches no record yet still decrements the
counter to 0. -/
theorem C4_counterexample :
    (stateA.notifications.filter fun n => n.id == some "x") = [] ∧
    (markAsRead true "x" stateA).notifications = stateA.notifications ∧
    (markAsRead true "x" stateA).unreadCount ≠ stateA.unreadCount := by
  decide

/-- Claim C4, amended: on a successful PATCH, `markAsRead` sets
`read := true` on every record whose id matches and decrements the counter
by exactly one whenever it is positive (clamped at 0 otherwise) —
regardless of whether any record matched or was unread; in particular two
successive successful calls with the same id decrement the counter by two
whenever it was at least two. -/
theorem C4_markAsRead_unconditional_decrement (notificationId : String)
    (s : NotificationState) :
    (0 < s.unreadCount →
      (markAsRead true notificationId s).unreadCount = s.unreadCount - 1) ∧
    (2 ≤ s.unreadCount →
      (markAsRead true notificationId (markAsRead true notificationId s)).unreadCount =
        s.unreadCount - 2) ∧
    (∀ n ∈ (markAsRead true notificationId s).notifications,
      n.id = some notificationId → n.read = true) := by
  refine ⟨fun h => ?_, fun h => ?_, fun n hn hid => ?_⟩
  · show max 0 (s.unreadCount - 1) = s.unreadCount - 1
    omega
  · show max 0 (max 0 (s.unreadCount - 1) - 1) = s.unreadCount - 2
    omega
  · rw [show (markAsRead true notificationId s).notifications =
        s.notifications.map (fun n =>
          if n.id == some notificationId then { n with read := true } else n) from rfl,
      List.mem_map] at hn
    obtain ⟨m, _, hm⟩ := hn
    by_cases hmid : m.id == some notificationId
    · rw [if_pos hmid] at hm
      rw [← hm]
    · rw [if_neg hmid] at hm
      subst hm
      simp only [beq_iff_eq] at hmid
      exact absurd hid hmid

/-- Witness for `C4_markAsRead_unconditional_decrement` at the concrete
state holding the two unread records `a`, `b` with counter 2. -/
theorem C4_witness :
    (markAsRead true "a" stateAB).unreadCount = stateAB.unreadCount - 1 ∧
    (markAsRead true "a" (markAsRead true "a" stateAB)).unreadCount =
      stateAB.unreadCount - 2 :=
  ⟨(C4_markAsRead_unconditional_decrement "a" stateAB).1 (by decide),
   (C4_markAsRead_unconditional_decrement "a" stateAB).2.1 (by decide)⟩

/-- C5 fails on the code: the `'notification'` handler performs no payload
validation.  A payload missing the required `title`, `message` and
`createdAt` fields is prepended to the store as-is, so the store does end
up holding a record with undefined required fields. -/
theorem C5_counterexample :
    badRec.title = none ∧ badRec.message = none ∧ badRec.createdAt = none ∧
    badRec ∈ (routeEvent "notification" badRec initialState).notifications := by
  decide

/-- Claim C5, amended: the `'notification'` handler rejects nothing — every
payload, well-formed or malformed, is prepended to the store (and counted
as unread); malformed records are not filtered at the event-router
boundary. -/
theorem C5_no_validation (raw : Notification) (s : NotificationState) :
    raw ∈ (routeEvent "notification" raw s).notifications ∧
    (routeEvent "notification" raw s).notifications.length = s.notifications.length + 1 := by
  constructor <;> simp [routeEvent, insertNotification]

/-- Claim C6: only the `'notification'` event mutates the notification
state.  The handlers registered for `'new_assignment'`, `'grade_posted'`,
`'enrollment_update'` and `'system_message'` only `console.log`, and an
event with an unrecognized name has no handler at all, so any event whose
name is not `'notification'` leaves the record list and the counter
unchanged. -/
theorem C6_only_notification_mutates (name : String) (payload : Notification)
    (s : NotificationState) (h : name ≠ "notification") :
    routeEvent name payload s = s := by
  simp [routeEvent, h]

/-- Witness for `C6_only_notification_mutates` at the concrete event name
`'grade_posted'`. -/
theorem C6_witness :
    "grade_posted" ≠ "notification" ∧ routeEvent "grade_posted" recB stateA = stateA :=
  ⟨by decide, C6_only_notification_mutates "grade_posted" recB stateA (by decide)⟩

/-- Claim C7: on a successful PATCH, `markAllAsRead` maps `read := true`
over every record and resets the counter to exactly 0, whatever the prior
flags and counter were — on an empty store this leaves the empty list and
counter 0. -/
theorem C7_markAllAsRead_total (s : NotificationState) :
    (∀ n ∈ (markAllAsRead true s).notifications, n.read = true) ∧
    (markAllAsRead true s).unreadCount = 0 := by
  constructor
  · intro n hn
    rw [show (markAllAsRead true s).notifications =
        s.notifications.map (fun n => { n with read := true }) from rfl,
      List.mem_map] at hn
    obtain ⟨m, _, hm⟩ := hn
    rw [← hm]
  · rfl

/-- Claim C9: when the initial snapshot fetch fails (the `fetch` throws or
`response.ok` is false, both modelled by `none`), neither
`fetchNotifications` nor `fetchUnreadCount` mutates the state — the
record list and the counter keep their prior values. -/
theorem C9_fetch_failure_noop (s : NotificationState) :
    fetchNotificationsStep none s = s ∧ fetchUnreadCountStep none s = s :=
  ⟨rfl, rfl⟩

/-- Claim C10: on a 2xx snapshot response with a missing body field the
seed falls back to safe defaults — `data.notifications || []` yields the
empty list when the field is absent/`null`, and `data.count || 0` yields 0
when the field is absent, `null`, or the (falsy) number 0, so an absent
count is indistinguishable from a count of 0. -/
theorem C10_fetch_defaults (s : NotificationState) :
    fetchNotificationsStep (some { notifications := none }) s =
      { s with notifications := [] } ∧
    fetchUnreadCountStep (some { count := none }) s = { s with unreadCount := 0 } ∧
    fetchUnreadCountStep (some { count := some 0 }) s = { s with unreadCount := 0 } :=
  ⟨rfl, rfl, rfl⟩

/-- Effect of a sequence of `'notification'` deliveries, first delivery
first (each one runs the handler embedded by `insertNotification`). -/
def applyInserts (ns : List Notification) (s : NotificationState) : NotificationState :=
  ns.foldl (fun st n => insertNotification n st) s

/-- After a sequence of inserts the record list is the reversed insert
sequence prepended to the prior list. -/
theorem applyInserts_notifications (ns : List Notification) (s : NotificationState) :
    (applyInserts ns s).notifications = ns.reverse ++ s.notifications := by
  induction ns generalizing s with
  | nil => rfl
  | cons a tl ih =>
      rw [show applyInserts (a :: tl) s = applyInserts tl (insertNotification a s) from rfl,
        ih, List.reverse_cons, List.append_assoc]
      rfl

/-- C8 fails on the code: because duplicates are prepended rather than
dropped, the record at index 0 after a sequence of inserts is the most
recently inserted record even when its id was already present.  Starting
from the store `[a]`, inserting `b` then `a` again leaves the duplicate of
`a` at index 0, although the most recently inserted record *not previously
present* is `b`. -/
theorem C8_counterexample :
    (applyInserts [recB, recA] stateA).notifications.head? = some recA ∧
    recA ∈ stateA.notifications ∧ recB ∉ stateA.notifications ∧ recA ≠ recB := by
  decide

/-- Claim C8, amended: `insert` always prepends, so after a sequence of
inserts the store is the reversed insert sequence followed by the prior
records — index 0 holds the most recently inserted record (whether or not
its id was previously present, since duplicates are not dropped), and the
pre-existing records keep their relative order as the tail. -/
theorem C8_insert_prepends (ns : List Notification) (s : NotificationState) :
    (applyInserts ns s).notifications = ns.reverse ++ s.notifications ∧
    (∀ n : Notification,
      (applyInserts (ns ++ [n]) s).notifications.head? = some n) ∧
    (applyInserts ns s).notifications.drop ns.length = s.notifications := by
  refine ⟨applyInserts_notifications ns s, fun n => ?_, ?_⟩
  · rw [applyInserts_notifications, List.reverse_append, List.reverse_singleton,
      List.singleton_append, List.cons_append, List.head?_cons]
  · rw [applyInserts_notifications, List.drop_append_of_le_length (by simp),
      List.drop_reverse]
    simp

/-- Marking every record read leaves no unread record. -/
theorem countUnread_markAll (ns : List Notification) :
    countUnread (ns.map fun n => { n with read := true }) = 0 := by
  simp [countUnread]

/-- Marking the records matching one id read removes exactly the unread
matching records from the unread count. -/
theorem countUnread_markOne (notificationId : String) (ns : List Notification) :
    countUnread ns =
      countUnread (ns.map fun n =>
        if n.id == some notificationId then { n with read := true } else n) +
      unreadMatches notificationId ns := by
  induction ns with
  | nil => rfl
  | cons m tl ih =>
      by_cases hid : m.id = some notificationId <;> cases hr : m.read <;>
        simp [countUnread, unreadMatches, List.filter_cons, hid, hr] at ih ⊢ <;>
        omega

/-- Each store operation preserves the counter invariant under its
`safeOp` side condition. -/
theorem counterInv_applyOp (op : StoreOp) (s : NotificationState)
    (hinv : counterInv s) (hsafe : safeOp op s = true) :
    counterInv (applyOp op s) := by
  cases op with
  | seed records count =>
      show count = (countUnread records : Int)
      rw [show safeOp (.seed records count) s = (count == (countUnread records : Int))
        from rfl, beq_iff_eq] at hsafe
      exact hsafe
  | insert n =>
      rw [show safeOp (.insert n) s = !n.read from rfl, Bool.not_eq_eq_eq_not,
        Bool.not_true] at hsafe
      show s.unreadCount + 1 = (countUnread (n :: s.notifications) : Int)
      rw [show countUnread (n :: s.notifications)
          = countUnread s.notifications + 1 by
        simp [countUnread, List.filter_cons, hsafe]]
      rw [counterInv] at hinv
      push_cast
      omega
  | markRead ok id =>
      cases ok with
      | false => exact hinv
      | true =>
          rw [show safeOp (.markRead true id) s
              = (!true || unreadMatches id s.notifications == 1) from rfl,
            Bool.not_true, Bool.false_or, beq_iff_eq] at hsafe
          show max 0 (s.unreadCount - 1)
              = (countUnread (s.notifications.map fun n =>
                  if n.id == some id then { n with read := true } else n) : Int)
          rw [counterInv] at hinv
          have h := countUnread_markOne id s.notifications
          rw [hsafe] at h
          rw [max_eq_right (by rw [hinv, h]; push_cast; omega)]
          rw [hinv, h]
          push_cast
          omega
  | markAllRead ok =>
      cases ok with
      | false => exact hinv
      | true =>
          show (0 : Int) = (countUnread (s.notifications.map fun n =>
            { n with read := true }) : Int)
          rw [countUnread_markAll]
          rfl

/-- The counter invariant is preserved along any sequence of operations
satisfying the `safeOps` side conditions. -/
theorem counterInv_applyOps (ops : List StoreOp) (s : NotificationState)
    (hinv : counterInv s) (hsafe : safeOps ops s = true) :
    counterInv (applyOps ops s) := by
  induction ops generalizing s with
  | nil => exact hinv
  | cons op tl ih =>
      rw [show safeOps (op :: tl) s = (safeOp op s && safeOps tl (applyOp op s)) from rfl,
        Bool.and_eq_true] at hsafe
      exact ih (applyOp op s) (counterInv_applyOp op s hinv hsafe.1) hsafe.2

/-- The `safeOps` side conditions of a sequence restrict to any leading
fragment of it. -/
theorem safeOps_append_left (ops rest : List StoreOp) (s : NotificationState)
    (h : safeOps (ops ++ rest) s = true) : safeOps ops s = true := by
  induction ops generalizing s with
  | nil => rfl
  | cons op tl ih =>
      rw [List.cons_append,
        show safeOps (op :: (tl ++ rest)) s
          = (safeOp op s && safeOps (tl ++ rest) (applyOp op s)) from rfl,
        Bool.and_eq_true] at h
      rw [show safeOps (op :: tl) s = (safeOp op s && safeOps tl (applyOp op s)) from rfl,
        Bool.and_eq_true]
      exact ⟨h.1, ih (applyOp op s) h.2⟩

/-- C1 fails on the code: on a successful PATCH, `markAsRead` decrements
the counter even when no record matches the id.  Seed the store with the
single unread record `a` and count 1 (a consistent snapshot), then run
`markAsRead` with the absent id `"x"`: the records are untouched (one
unread record remains) but the counter drops to 0, so the counter no
longer equals the number of unread records. -/
theorem C1_counterexample :
    ¬ counterInv
      (applyOps [StoreOp.seed [recA] 1, StoreOp.markRead true "x"] initialState) := by
  decide

/-- Claim C1, amended: the counter invariant
`unreadCount = count(records where read = false)` holds after every step
of an operation sequence from an invariant-satisfying state, provided each
step is safe: every seed's count equals the number of unread records it
seeds, every inserted record is unread, and every markRead whose PATCH
succeeds matches exactly one unread record in the store at that point.
(The side conditions are forced: the code decrements the counter
unconditionally on a successful markRead PATCH, counts every inserted
record as unread whatever its `read` flag, and seeds counter and list from
two independent server fields.) -/
theorem C1_counter_invariant (ops lead rest : List StoreOp) (s : NotificationState)
    (hinv : counterInv s) (hsafe : safeOps ops s = true) (hsplit : ops = lead ++ rest) :
    counterInv (applyOps lead s) :=
  counterInv_applyOps lead s hinv (safeOps_append_left lead rest s (hsplit ▸ hsafe))

/-- Witness for `C1_counter_invariant`: a consistent seed followed by a
successful markRead of the unique unread record `a`, checked after the
first step. -/
theorem C1_witness :
    counterInv (applyOps [StoreOp.seed [recA] 1] initialState) :=
  C1_counter_invariant [StoreOp.seed [recA] 1, StoreOp.markRead true "a"]
    [StoreOp.seed [recA] 1] [StoreOp.markRead true "a"] initialState
    (by decide) (by decide) rfl

end LMS
